import Mathlib

/-!
Shallow embedding of the zkbitgart-api completion registry (src/routes.js).

The registry owns two in-memory collections:
  * `taskCompletions`      : Map userAddress → completion data   (JS `Map`)
  * `usedTransactionHashes`: Set of consumed transaction hashes  (JS `Set`)
and exposes the POST /complete-task and GET /task-status handlers plus
two read-only snapshots (/health, /stats).

JS values are embedded as follows: integers as `Int` (timestamps are
validated positive so no overflow concerns arise), strings as `String`,
an optional field as `Option String` (`none` = JS `undefined`), the Map
as an association list with unique keys in insertion order, the Set as a
duplicate-free list in insertion order.  The server clock reading
`Math.floor(Date.now() / 1000)` is threaded in as an explicit `now`
argument.
-/

namespace ZkBitgart

/-- One character of `/[a-fA-F0-9]/`. -/
def isHexDigit (c : Char) : Bool :=
  ('0' ≤ c && c ≤ '9') || ('a' ≤ c && c ≤ 'f') || ('A' ≤ c && c ≤ 'F')

/-- The regex `/^0x[a-fA-F0-9]{n}$/` from the validation middleware:
a literal `0x` followed by exactly `n` hex digits. -/
def matchesHex (n : Nat) (s : String) : Bool :=
  match s.data with
  | c0 :: c1 :: rest => c0 == '0' && c1 == 'x' && rest.length == n && rest.all isHexDigit
  | _ => false

/-- `/^0x[a-fA-F0-9]{40}$/`: the Ethereum-address shape. -/
def isAddressFormat (s : String) : Bool := matchesHex 40 s

/-- `/^0x[a-fA-F0-9]{64}$/`: the transaction-hash shape. -/
def isTxHashFormat (s : String) : Bool := matchesHex 64 s

/-- JS `String.prototype.toLowerCase` on the ASCII strings at hand:
lower-case every character. -/
def toLowerCase (s : String) : String := String.mk (s.data.map Char.toLower)

/-- The stored completion data object
`{ timestamp, tx: tx || "", completedAt }` (routes.js lines 104-108);
`completedAt` is the server-observed instant of insertion. -/
structure CompletionRecord where
  timestamp : Int
  tx : String
  completedAt : Int
deriving Repr, DecidableEq

/-- The `data` part of every JSON response body. -/
structure ResponseData where
  timestamp : Int
  tx : String
deriving Repr, DecidableEq

/-- The JSON response body shape `{status, error?, data: {timestamp, tx}}`;
`error = none` models an absent `error` field. -/
structure ApiResult where
  status : Int
  error : Option String
  data : ResponseData
deriving Repr, DecidableEq

/-- `createSuccessResponse(timestamp, tx)` (routes.js lines 17-25);
the argument `tx` may be `undefined`, and `tx || ""` becomes `getD ""`. -/
def createSuccessResponse (timestamp : Int) (tx : Option String) : ApiResult :=
  { status := 1, error := none, data := { timestamp := timestamp, tx := tx.getD "" } }

/-- `createIncompleteResponse()` (routes.js lines 27-35). -/
def createIncompleteResponse : ApiResult :=
  { status := 0, error := none, data := { timestamp := 0, tx := "" } }

/-- `createErrorResponse(message)` (routes.js lines 37-46). -/
def createErrorResponse (message : String) : ApiResult :=
  { status := 0, error := some message, data := { timestamp := 0, tx := "" } }

/-- The `validateTaskCompletion` middleware chain (routes.js lines 49-60)
combined with `validationResult(req)` in the handler: the first failing
validator's message, in declaration order, or `none` when all pass. -/
def validateTaskCompletion (userAddress : String) (timestamp : Int)
    (tx : Option String) : Option String :=
  if !(isAddressFormat userAddress) then some "Invalid Ethereum address format"
  else if timestamp < 1 then some "Timestamp must be a positive integer"
  else if !(Option.all isTxHashFormat tx) then some "Invalid transaction hash format"
  else none

/-- The `validateAddressParam` middleware (routes.js lines 62-66). -/
def validateAddressParam (userAddress : String) : Option String :=
  if !(isAddressFormat userAddress) then some "Invalid Ethereum address format"
  else none

/-- `isValidTimestamp(timestamp)` (routes.js lines 11-15), with the server
clock `now = Math.floor(Date.now() / 1000)` made explicit. -/
def isValidTimestamp (now timestamp : Int) : Bool :=
  let oneYearAgo := now - (365 * 24 * 60 * 60)
  timestamp ≥ oneYearAgo && timestamp ≤ now + 300

/-- JS truthiness of the optional `tx` value: `undefined` and `""` are
falsy, every other string is truthy. -/
def txTruthy : Option String → Bool
  | none => false
  | some s => !(s == "")

/-- The registry state: the `taskCompletions` Map (association list keyed
by normalized address, unique keys, insertion order) and the
`usedTransactionHashes` Set (duplicate-free list, insertion order). -/
structure RegistryState where
  taskCompletions : List (String × CompletionRecord)
  usedTransactionHashes : List String
deriving Repr, DecidableEq

/-- The initial state: both collections empty (routes.js lines 7-8). -/
def emptyRegistry : RegistryState :=
  { taskCompletions := [], usedTransactionHashes := [] }

/-- JS `Map.prototype.get`. -/
def mapGet (m : List (String × CompletionRecord)) (k : String) :
    Option CompletionRecord :=
  match m with
  | [] => none
  | (k0, v0) :: rest => if k0 = k then some v0 else mapGet rest k

/-- JS `Map.prototype.set`: overwrite in place when the key exists,
otherwise append. -/
def mapSet (m : List (String × CompletionRecord)) (k : String)
    (v : CompletionRecord) : List (String × CompletionRecord) :=
  match m with
  | [] => [(k, v)]
  | (k0, v0) :: rest =>
    if k0 = k then (k, v) :: rest else (k0, v0) :: mapSet rest k v

/-- JS `Set.prototype.has`. -/
def setHas (s : List String) (h : String) : Bool := s.contains h

/-- JS `Set.prototype.add`: no-op when already present, otherwise append. -/
def setAdd (s : List String) (h : String) : List String :=
  if s.contains h then s else s ++ [h]

/-- The POST /complete-task handler (routes.js lines 74-124): validation,
timestamp plausibility, duplicate-hash check, idempotency check, then
store-and-consume.  Returns the JSON body and the post-call state. -/
def completeTask (now : Int) (st : RegistryState) (userAddress : String)
    (timestamp : Int) (tx : Option String) : ApiResult × RegistryState :=
  match validateTaskCompletion userAddress timestamp tx with
  | some msg => (createErrorResponse msg, st)
  | none =>
    let normalizedAddress := toLowerCase userAddress
    if !(isValidTimestamp now timestamp) then
      (createErrorResponse "Invalid timestamp", st)
    else if txTruthy tx && setHas st.usedTransactionHashes (tx.getD "") then
      (createErrorResponse "Transaction hash already used", st)
    else
      match mapGet st.taskCompletions normalizedAddress with
      | some existingCompletion =>
        (createSuccessResponse existingCompletion.timestamp
          (some existingCompletion.tx), st)
      | none =>
        let completionData : CompletionRecord :=
          { timestamp := timestamp, tx := tx.getD "", completedAt := now }
        let st1 : RegistryState :=
          { st with taskCompletions :=
              mapSet st.taskCompletions normalizedAddress completionData }
        let st2 : RegistryState :=
          if txTruthy tx then
            { st1 with
              usedTransactionHashes := setAdd st1.usedTransactionHashes (tx.getD "") }
          else st1
        (createSuccessResponse timestamp tx, st2)

/-- The GET /task-status/:userAddress handler (routes.js lines 130-149).
Read-only: returns just the JSON body. -/
def taskStatus (st : RegistryState) (userAddress : String) : ApiResult :=
  match validateAddressParam userAddress with
  | some msg => createErrorResponse msg
  | none =>
    match mapGet st.taskCompletions (toLowerCase userAddress) with
    | none => createIncompleteResponse
    | some completion =>
      createSuccessResponse completion.timestamp (some completion.tx)

/-- The GET /health handler (routes.js lines 155-162): current counts
and time, no state change. -/
def healthSnapshot (now : Int) (st : RegistryState) : Int × Nat × Nat :=
  (now, st.taskCompletions.length, st.usedTransactionHashes.length)

/-- The GET /stats handler (routes.js lines 168-174): current counts
and time, no state change. -/
def statsSnapshot (now : Int) (st : RegistryState) : Nat × Nat × Int :=
  (st.taskCompletions.length, st.usedTransactionHashes.length, now)

/-- A registry operation, for reasoning about arbitrary call sequences. -/
inductive Op where
  | register (now : Int) (userAddress : String) (timestamp : Int) (tx : Option String)
  | status (userAddress : String)
  | health (now : Int)
  | stats (now : Int)

/-- The state effect of one operation: only register-completion writes;
the three read operations leave the state untouched. -/
def applyOp (st : RegistryState) : Op → RegistryState
  | Op.register now userAddress timestamp tx =>
    (completeTask now st userAddress timestamp tx).2
  | Op.status _ => st
  | Op.health _ => st
  | Op.stats _ => st

/-- The state after a sequence of operations. -/
def applyOps (st : RegistryState) (ops : List Op) : RegistryState :=
  ops.foldl applyOp st

/-- Two strings that differ only in letter case: their character-wise
lower-casings agree. -/
def equalIgnoringCase (a b : String) : Bool :=
  (a.data.map Char.toLower) == (b.data.map Char.toLower)

/-! ### Concrete values used to exercise the handlers -/

/-- A syntactically valid address (40 hex digits), already lower case. -/
def addrA : String := "0xaaaaaaaaaaaaaaaaaaaaaaaaaaaaaaaaaaaaaaaa"

/-- The same address as `addrA` written in upper-case hex. -/
def addrAUpper : String := "0xAAAAAAAAAAAAAAAAAAAAAAAAAAAAAAAAAAAAAAAA"

/-- A second, distinct valid address. -/
def addrB : String := "0xbbbbbbbbbbbbbbbbbbbbbbbbbbbbbbbbbbbbbbbb"

/-- A syntactically valid transaction hash (64 hex digits). -/
def hash1 : String :=
  "0x1111111111111111111111111111111111111111111111111111111111111111"

/-- A second, distinct valid transaction hash. -/
def hash2 : String :=
  "0x2222222222222222222222222222222222222222222222222222222222222222"

/-- A valid transaction hash written with upper-case hex letters. -/
def hashUpper : String :=
  "0xABABABABABABABABABABABABABABABABABABABABABABABABABABABABABABABAB"

/-- The same 64 hex digits as `hashUpper`, in lower case. -/
def hashLower : String :=
  "0xabababababababababababababababababababababababababababababababab"

/-- A fixed server clock reading (2024-05-11, in epoch seconds). -/
def now0 : Int := 1715418615

/-! ### Helper lemmas about the collection operations -/

theorem mapGet_mapSet_self (m : List (String × CompletionRecord)) (k : String)
    (v : CompletionRecord) : mapGet (mapSet m k v) k = some v := by
  induction m with
  | nil => simp [mapGet, mapSet]
  | cons p rest ih =>
    obtain ⟨k0, v0⟩ := p
    by_cases hk : k0 = k
    · simp [mapGet, mapSet, hk]
    · simp [mapGet, mapSet, hk, ih]

theorem mapGet_mapSet_of_ne (m : List (String × CompletionRecord))
    (k k0 : String) (v : CompletionRecord) (hne : k0 ≠ k) :
    mapGet (mapSet m k v) k0 = mapGet m k0 := by
  induction m with
  | nil => simp [mapGet, mapSet, Ne.symm hne]
  | cons p rest ih =>
    obtain ⟨k1, v1⟩ := p
    by_cases hk : k1 = k
    · subst hk
      simp [mapGet, mapSet, hne, Ne.symm hne]
    · by_cases hk0 : k1 = k0 <;>
        simp [mapGet, mapSet, hk, hk0, hne, Ne.symm hne, ih]

theorem mapGet_eq_none_iff (m : List (String × CompletionRecord)) (k : String) :
    mapGet m k = none ↔ k ∉ m.map Prod.fst := by
  induction m with
  | nil => simp [mapGet]
  | cons p rest ih =>
    obtain ⟨k0, v0⟩ := p
    by_cases hk : k0 = k
    · simp [mapGet, hk]
    · simp [mapGet, hk, ih, Ne.symm hk]

theorem mapSet_keys_of_fresh (m : List (String × CompletionRecord))
    (k : String) (v : CompletionRecord) (h : mapGet m k = none) :
    (mapSet m k v).map Prod.fst = m.map Prod.fst ++ [k] := by
  induction m with
  | nil => simp [mapSet]
  | cons p rest ih =>
    obtain ⟨k0, v0⟩ := p
    by_cases hk : k0 = k
    · simp [mapGet, hk] at h
    · simp [mapGet, hk] at h
      simp [mapSet, hk, ih h]

theorem setHas_iff_mem (s : List String) (x : String) :
    setHas s x = true ↔ x ∈ s := by
  simpa [setHas] using List.elem_iff

theorem setAdd_of_not_has (s : List String) (h : String)
    (hh : setHas s h = false) : setAdd s h = s ++ [h] := by
  simp only [setAdd]
  rw [show s.contains h = false from hh]
  simp

theorem setHas_append_single (s : List String) (h x : String) :
    setHas (s ++ [h]) x = (setHas s x || decide (x = h)) := by
  rw [Bool.eq_iff_iff]
  simp [setHas_iff_mem, List.mem_append]

theorem matchesHex_ne_empty (n : Nat) (s : String)
    (h : matchesHex n s = true) : (s == "") = false := by
  rw [beq_eq_false_iff_ne]
  intro he
  subst he
  simp [matchesHex] at h

theorem validate_none_iff (userAddress : String) (timestamp : Int)
    (tx : Option String) :
    validateTaskCompletion userAddress timestamp tx = none ↔
      (isAddressFormat userAddress = true ∧ 1 ≤ timestamp ∧
        Option.all isTxHashFormat tx = true) := by
  unfold validateTaskCompletion
  by_cases ha : isAddressFormat userAddress <;>
    by_cases ht : timestamp < 1 <;>
      by_cases hx : Option.all isTxHashFormat tx <;>
        simp [ha, ht, hx] <;> omega

theorem txTruthy_of_valid_some (userAddress : String) (timestamp : Int)
    (h : String)
    (hv : validateTaskCompletion userAddress timestamp (some h) = none) :
    txTruthy (some h) = true := by
  rcases (validate_none_iff userAddress timestamp (some h)).mp hv with ⟨-, -, hx⟩
  simp only [Option.all, isTxHashFormat] at hx
  simp only [txTruthy]
  rw [matchesHex_ne_empty 64 h hx]
  rfl

/-! ### Branch shape lemmas for the complete-task handler -/

theorem completeTask_dup_hash (now : Int) (st : RegistryState) (a : String)
    (ts : Int) (h : String)
    (hval : validateTaskCompletion a ts (some h) = none)
    (hts : isValidTimestamp now ts = true)
    (hused : setHas st.usedTransactionHashes h = true) :
    completeTask now st a ts (some h) =
      (createErrorResponse "Transaction hash already used", st) := by
  have ht := txTruthy_of_valid_some a ts h hval
  unfold completeTask
  rw [hval]
  simp [hts, ht, hused]

theorem completeTask_existing (now : Int) (st : RegistryState) (a : String)
    (ts : Int) (tx : Option String) (rec : CompletionRecord)
    (hval : validateTaskCompletion a ts tx = none)
    (hts : isValidTimestamp now ts = true)
    (hdup : (txTruthy tx && setHas st.usedTransactionHashes (tx.getD "")) = false)
    (hex : mapGet st.taskCompletions (toLowerCase a) = some rec) :
    completeTask now st a ts tx =
      (createSuccessResponse rec.timestamp (some rec.tx), st) := by
  unfold completeTask
  rw [hval]
  simp [hts, hdup, hex]

theorem completeTask_fresh (now : Int) (st : RegistryState) (a : String)
    (ts : Int) (tx : Option String)
    (hval : validateTaskCompletion a ts tx = none)
    (hts : isValidTimestamp now ts = true)
    (hdup : (txTruthy tx && setHas st.usedTransactionHashes (tx.getD "")) = false)
    (habs : mapGet st.taskCompletions (toLowerCase a) = none) :
    completeTask now st a ts tx =
      (createSuccessResponse ts tx,
        { taskCompletions :=
            mapSet st.taskCompletions (toLowerCase a)
              { timestamp := ts, tx := tx.getD "", completedAt := now },
          usedTransactionHashes :=
            if txTruthy tx then setAdd st.usedTransactionHashes (tx.getD "")
            else st.usedTransactionHashes }) := by
  unfold completeTask
  rw [hval]
  simp only [hts, hdup, habs, Bool.not_true, Bool.false_eq_true, if_false]
  by_cases htx : txTruthy tx <;> simp [htx]

/-! ### Claims -/

/-- Claim C1, counterexample: the claim asserts that a caller may retry the
exact same (address, timestamp, transactionHash) triple after first success
and still receive a success result.  This is false: the first call consumes
the hash, and the duplicate-hash check runs before the idempotency check, so
the identical retry is rejected with the "Transaction hash already used"
error instead of succeeding. -/
theorem c1_retry_same_triple_counterexample :
    (completeTask now0 emptyRegistry addrA 1715418615 (some hash1)).1 =
        createSuccessResponse 1715418615 (some hash1) ∧
      (completeTask now0
          (completeTask now0 emptyRegistry addrA 1715418615 (some hash1)).2
          addrA 1715418615 (some hash1)).1 =
        createErrorResponse "Transaction hash already used" :=
  ⟨by decide, by decide⟩

/-- Claim C1, amended: for an address that already has a completion record,
a subsequent register-completion call with syntactically valid inputs, an
in-range timestamp, and a transaction hash that is absent or not yet in the
consumed-hash set succeeds as a no-op, returning the stored record's
timestamp and hash and leaving the state unchanged.  (Retrying the exact
same triple with a supplied hash is instead rejected, since the hash was
consumed by the first success.) -/
theorem c1_retry_after_success (now : Int) (st : RegistryState) (a : String)
    (ts : Int) (tx : Option String) (rec : CompletionRecord)
    (hval : validateTaskCompletion a ts tx = none)
    (hts : isValidTimestamp now ts = true)
    (hfresh : txTruthy tx = false ∨
      setHas st.usedTransactionHashes (tx.getD "") = false)
    (hex : mapGet st.taskCompletions (toLowerCase a) = some rec) :
    completeTask now st a ts tx =
      (createSuccessResponse rec.timestamp (some rec.tx), st) := by
  have hdup : (txTruthy tx && setHas st.usedTransactionHashes (tx.getD "")) =
      false := by
    rcases hfresh with h | h <;> simp [h]
  exact completeTask_existing now st a ts tx rec hval hts hdup hex

/-- Witness for the amended claim C1 at a concrete input: the address
already holds a record with timestamp 1715418615 and `hash1`; a retry with
a different timestamp and the fresh `hash2` returns the stored data and
leaves the registry unchanged. -/
theorem c1_retry_after_success_witness :
    completeTask now0
        { taskCompletions :=
            [(addrA, { timestamp := 1715418615, tx := hash1,
                       completedAt := now0 })],
          usedTransactionHashes := [hash1] }
        addrA 1715418700 (some hash2) =
      (createSuccessResponse 1715418615 (some hash1),
        { taskCompletions :=
            [(addrA, { timestamp := 1715418615, tx := hash1,
                       completedAt := now0 })],
          usedTransactionHashes := [hash1] }) :=
  c1_retry_after_success now0 _ addrA 1715418700 (some hash2)
    { timestamp := 1715418615, tx := hash1, completedAt := now0 }
    (by decide) (by decide) (Or.inr (by decide)) (by decide)

/-- Claim C2: the duplicate-transaction check is evaluated before the
existing-record (idempotency) check: whenever the supplied transaction hash
is already in the consumed-hash set, the call fails with the
"Transaction hash already used" error and leaves the state unchanged —
for every state, in particular states where the calling address already
has its own completion record. -/
theorem c2_dup_check_precedes_idempotency (now : Int) (st : RegistryState)
    (a : String) (ts : Int) (h : String)
    (hval : validateTaskCompletion a ts (some h) = none)
    (hts : isValidTimestamp now ts = true)
    (hused : setHas st.usedTransactionHashes h = true) :
    completeTask now st a ts (some h) =
      (createErrorResponse "Transaction hash already used", st) :=
  completeTask_dup_hash now st a ts h hval hts hused

/-- Witness for claim C2 at a concrete input: the calling address already
has its own record (stored with `hash1`), yet its call reusing the consumed
`hash1` is rejected by the duplicate-hash check. -/
theorem c2_dup_check_precedes_idempotency_witness :
    completeTask now0
        { taskCompletions :=
            [(addrA, { timestamp := 1715418615, tx := hash1,
                       completedAt := now0 })],
          usedTransactionHashes := [hash1] }
        addrA 1715418700 (some hash1) =
      (createErrorResponse "Transaction hash already used",
        { taskCompletions :=
            [(addrA, { timestamp := 1715418615, tx := hash1,
                       completedAt := now0 })],
          usedTransactionHashes := [hash1] }) :=
  c2_dup_check_precedes_idempotency now0 _ addrA 1715418700 hash1
    (by decide) (by decide) (by decide)

/-- Claim C3: after a successful register-completion (a, ts1, h1) from a
state where the address was absent, a second call (a, ts2, h2) with valid
inputs, in-range timestamp, ts2 ≠ ts1, h2 ≠ h1 and h2 not previously
consumed returns ts1/h1, and the stored completion record for the address
is unchanged — still exactly the record written by the first call. -/
theorem c3_idempotent_second_call (now1 now2 : Int) (st : RegistryState)
    (a : String) (ts1 ts2 : Int) (h1 h2 : String)
    (hv1 : validateTaskCompletion a ts1 (some h1) = none)
    (ht1 : isValidTimestamp now1 ts1 = true)
    (hd1 : setHas st.usedTransactionHashes h1 = false)
    (habs : mapGet st.taskCompletions (toLowerCase a) = none)
    (hv2 : validateTaskCompletion a ts2 (some h2) = none)
    (ht2 : isValidTimestamp now2 ts2 = true)
    (hts : ts2 ≠ ts1) (htx : h2 ≠ h1)
    (hd2 : setHas st.usedTransactionHashes h2 = false) :
    (completeTask now2 (completeTask now1 st a ts1 (some h1)).2 a ts2
        (some h2)).1 = createSuccessResponse ts1 (some h1) ∧
      mapGet (completeTask now2 (completeTask now1 st a ts1 (some h1)).2 a ts2
          (some h2)).2.taskCompletions (toLowerCase a) =
        some { timestamp := ts1, tx := h1, completedAt := now1 } := by
  have htr1 := txTruthy_of_valid_some a ts1 h1 hv1
  have hdup1 : (txTruthy (some h1) &&
      setHas st.usedTransactionHashes ((some h1).getD "")) = false := by
    simp [hd1]
  rw [completeTask_fresh now1 st a ts1 (some h1) hv1 ht1 hdup1 habs]
  simp only [Option.getD_some, htr1, if_true]
  have hex : mapGet
      (mapSet st.taskCompletions (toLowerCase a)
        { timestamp := ts1, tx := h1, completedAt := now1 })
      (toLowerCase a) =
      some { timestamp := ts1, tx := h1, completedAt := now1 } :=
    mapGet_mapSet_self _ _ _
  have hset : setHas (setAdd st.usedTransactionHashes h1) h2 = false := by
    rw [setAdd_of_not_has _ _ hd1, setHas_append_single]
    simp [hd2, htx]
  have hdup2 : (txTruthy (some h2) &&
      setHas (setAdd st.usedTransactionHashes h1) ((some h2).getD "")) =
      false := by
    simp [hset]
  rw [completeTask_existing now2 _ a ts2 (some h2) _ hv2 ht2 hdup2 hex]
  exact ⟨rfl, hex⟩

/-- Witness for claim C3 at a concrete input: register (addrA, 1715418615,
hash1) from the empty registry, then call (addrA, 1715418700, hash2); the
second call returns the first call's data and the stored record still holds
timestamp 1715418615 and hash1. -/
theorem c3_idempotent_second_call_witness :
    (completeTask now0 (completeTask now0 emptyRegistry addrA 1715418615
        (some hash1)).2 addrA 1715418700 (some hash2)).1 =
        createSuccessResponse 1715418615 (some hash1) ∧
      mapGet (completeTask now0 (completeTask now0 emptyRegistry addrA
          1715418615 (some hash1)).2 addrA 1715418700
          (some hash2)).2.taskCompletions (toLowerCase addrA) =
        some { timestamp := 1715418615, tx := hash1, completedAt := now0 } :=
  c3_idempotent_second_call now0 now0 emptyRegistry addrA 1715418615
    1715418700 hash1 hash2 (by decide) (by decide) (by decide) (by decide)
    (by decide) (by decide) (by decide) (by decide) (by decide)

/-- Claim C4: once hash h has been accepted in a successful
register-completion for address a, a register-completion call by a distinct
address b with valid inputs and an in-range timestamp reusing h fails with
the "Transaction hash already used" error, and the failing call leaves the
registry state exactly as it was after the first call: no record is created
for b and the consumed-hash set is not modified. -/
theorem c4_hash_uniqueness_across_addresses (now1 now2 : Int)
    (st : RegistryState) (a b : String) (ts1 ts2 : Int) (h : String)
    (hne : toLowerCase b ≠ toLowerCase a)
    (hv1 : validateTaskCompletion a ts1 (some h) = none)
    (ht1 : isValidTimestamp now1 ts1 = true)
    (hd1 : setHas st.usedTransactionHashes h = false)
    (habs : mapGet st.taskCompletions (toLowerCase a) = none)
    (hv2 : validateTaskCompletion b ts2 (some h) = none)
    (ht2 : isValidTimestamp now2 ts2 = true) :
    completeTask now2 (completeTask now1 st a ts1 (some h)).2 b ts2
        (some h) =
      (createErrorResponse "Transaction hash already used",
        (completeTask now1 st a ts1 (some h)).2) := by
  have htr1 := txTruthy_of_valid_some a ts1 h hv1
  have hdup1 : (txTruthy (some h) &&
      setHas st.usedTransactionHashes ((some h).getD "")) = false := by
    simp [hd1]
  rw [completeTask_fresh now1 st a ts1 (some h) hv1 ht1 hdup1 habs]
  simp only [Option.getD_some, htr1, if_true]
  have hused : setHas (setAdd st.usedTransactionHashes h) h = true := by
    rw [setAdd_of_not_has _ _ hd1, setHas_append_single]
    simp
  exact completeTask_dup_hash now2 _ b ts2 h hv2 ht2 hused

/-- Witness for claim C4 at a concrete input: addrA registers hash1 from
the empty registry; addrB's attempt to reuse hash1 fails with the
duplicate-hash error and changes nothing. -/
theorem c4_hash_uniqueness_across_addresses_witness :
    completeTask now0 (completeTask now0 emptyRegistry addrA 1715418615
        (some hash1)).2 addrB 1715418700 (some hash1) =
      (createErrorResponse "Transaction hash already used",
        (completeTask now0 emptyRegistry addrA 1715418615 (some hash1)).2) :=
  c4_hash_uniqueness_across_addresses now0 now0 emptyRegistry addrA addrB
    1715418615 1715418700 hash1 (by decide) (by decide) (by decide)
    (by decide) (by decide) (by decide) (by decide)

/-- Claim C9: on the idempotent no-op path, register-completion leaves the
entire registry state unchanged: a call on an address with an existing
record supplying a fresh, never-consumed hash does not add that hash to the
consumed-hash set, so a later register-completion by a different,
record-free address using that same hash succeeds. -/
theorem c9_noop_path_full_frame (now1 now2 : Int) (st : RegistryState)
    (a b : String) (ts1 ts2 : Int) (h : String) (rec : CompletionRecord)
    (hexA : mapGet st.taskCompletions (toLowerCase a) = some rec)
    (hv1 : validateTaskCompletion a ts1 (some h) = none)
    (ht1 : isValidTimestamp now1 ts1 = true)
    (hfresh : setHas st.usedTransactionHashes h = false)
    (hv2 : validateTaskCompletion b ts2 (some h) = none)
    (ht2 : isValidTimestamp now2 ts2 = true)
    (habsB : mapGet st.taskCompletions (toLowerCase b) = none) :
    (completeTask now1 st a ts1 (some h)).2 = st ∧
      (completeTask now2 (completeTask now1 st a ts1 (some h)).2 b ts2
          (some h)).1 = createSuccessResponse ts2 (some h) := by
  have hdup : (txTruthy (some h) &&
      setHas st.usedTransactionHashes ((some h).getD "")) = false := by
    simp [hfresh]
  have hfirst := completeTask_existing now1 st a ts1 (some h) rec hv1 ht1
    hdup hexA
  refine ⟨by rw [hfirst], ?_⟩
  rw [hfirst]
  show (completeTask now2 st b ts2 (some h)).1 = _
  rw [completeTask_fresh now2 st b ts2 (some h) hv2 ht2 hdup habsB]

/-- Witness for claim C9 at a concrete input: addrA already holds a record
stored without a hash; its no-op retry supplying the fresh hash2 leaves the
state unchanged, and addrB can then successfully register with hash2. -/
theorem c9_noop_path_full_frame_witness :
    (completeTask now0
        { taskCompletions :=
            [(addrA, { timestamp := 1715418615, tx := "",
                       completedAt := now0 })],
          usedTransactionHashes := [] }
        addrA 1715418700 (some hash2)).2 =
      { taskCompletions :=
          [(addrA, { timestamp := 1715418615, tx := "",
                     completedAt := now0 })],
        usedTransactionHashes := [] } ∧
      (completeTask now0
          (completeTask now0
            { taskCompletions :=
                [(addrA, { timestamp := 1715418615, tx := "",
                           completedAt := now0 })],
              usedTransactionHashes := [] }
            addrA 1715418700 (some hash2)).2
          addrB 1715418800 (some hash2)).1 =
        createSuccessResponse 1715418800 (some hash2) :=
  c9_noop_path_full_frame now0 now0 _ addrA addrB 1715418700 1715418800
    hash2 { timestamp := 1715418615, tx := "", completedAt := now0 }
    (by decide) (by decide) (by decide) (by decide) (by decide) (by decide)
    (by decide)

/-- Claim C5: for any syntactically valid call, register-completion returns
the "Invalid timestamp" error exactly when the supplied timestamp is below
now - 365 days or above now + 5 minutes, evaluated against the server clock
passed in at call time; concretely, now - 366 days fails the check,
now + 4 minutes passes it, and now + 6 minutes fails it. -/
theorem c5_timestamp_bound (now : Int) (st : RegistryState) (a : String)
    (ts : Int) (tx : Option String)
    (hval : validateTaskCompletion a ts tx = none) :
    ((completeTask now st a ts tx).1 = createErrorResponse "Invalid timestamp"
        ↔ (ts < now - 365 * 24 * 60 * 60 ∨ ts > now + 300)) ∧
      isValidTimestamp now (now - 366 * 24 * 60 * 60) = false ∧
      isValidTimestamp now (now + 4 * 60) = true ∧
      isValidTimestamp now (now + 6 * 60) = false := by
  refine ⟨⟨?_, ?_⟩, ?_, ?_, ?_⟩
  · intro hres
    by_contra hrange
    push_neg at hrange
    have hts : isValidTimestamp now ts = true := by
      simp only [isValidTimestamp, Bool.and_eq_true, decide_eq_true_eq,
        ge_iff_le]
      omega
    unfold completeTask at hres
    rw [hval] at hres
    simp only [hts, Bool.not_true, Bool.false_eq_true, if_false] at hres
    split at hres
    · simp [createErrorResponse] at hres
    · split at hres
      · simp [createSuccessResponse, createErrorResponse] at hres
      · simp [createSuccessResponse, createErrorResponse] at hres
  · intro hrange
    have hts : isValidTimestamp now ts = false := by
      simp only [isValidTimestamp, Bool.and_eq_false_iff, decide_eq_false_iff_not,
        ge_iff_le, not_le]
      omega
    unfold completeTask
    rw [hval]
    simp [hts]
  · simp only [isValidTimestamp, Bool.and_eq_false_iff, decide_eq_false_iff_not,
      ge_iff_le, not_le]
    omega
  · simp only [isValidTimestamp, Bool.and_eq_true, decide_eq_true_eq, ge_iff_le]
    omega
  · simp only [isValidTimestamp, Bool.and_eq_false_iff, decide_eq_false_iff_not,
      ge_iff_le, not_le]
    omega

/-- Witness for claim C5 at a concrete input: a valid call at server time
`now0` with timestamp equal to `now0`. -/
theorem c5_timestamp_bound_witness :
    (((completeTask now0 emptyRegistry addrA 1715418615 (some hash1)).1 =
          createErrorResponse "Invalid timestamp"
        ↔ ((1715418615 : Int) < now0 - 365 * 24 * 60 * 60 ∨
            (1715418615 : Int) > now0 + 300)) ∧
      isValidTimestamp now0 (now0 - 366 * 24 * 60 * 60) = false ∧
      isValidTimestamp now0 (now0 + 4 * 60) = true ∧
      isValidTimestamp now0 (now0 + 6 * 60) = false) :=
  c5_timestamp_bound now0 emptyRegistry addrA 1715418615 (some hash1)
    (by decide)

/-- Claim C7: get-status on a syntactically valid address with no stored
completion returns the positive "not complete" body
{status 0, data {timestamp 0, tx ""}} with no error field, rather than an
error result. -/
theorem c7_not_found_is_not_error (st : RegistryState) (a : String)
    (hfmt : isAddressFormat a = true)
    (habs : mapGet st.taskCompletions (toLowerCase a) = none) :
    taskStatus st a = createIncompleteResponse ∧
      (taskStatus st a).status = 0 ∧
      (taskStatus st a).error = none ∧
      (taskStatus st a).data = { timestamp := 0, tx := "" } := by
  have heq : taskStatus st a = createIncompleteResponse := by
    unfold taskStatus validateAddressParam
    simp [hfmt, habs]
  exact ⟨heq, by rw [heq]; rfl, by rw [heq]; rfl, by rw [heq]; rfl⟩

/-- Witness for claim C7 at a concrete input: addrB is absent from a
registry that holds a record for addrA only. -/
theorem c7_not_found_is_not_error_witness :
    taskStatus
        { taskCompletions :=
            [(addrA, { timestamp := 1715418615, tx := hash1,
                       completedAt := now0 })],
          usedTransactionHashes := [hash1] } addrB =
        createIncompleteResponse ∧
      (taskStatus
        { taskCompletions :=
            [(addrA, { timestamp := 1715418615, tx := hash1,
                       completedAt := now0 })],
          usedTransactionHashes := [hash1] } addrB).status = 0 ∧
      (taskStatus
        { taskCompletions :=
            [(addrA, { timestamp := 1715418615, tx := hash1,
                       completedAt := now0 })],
          usedTransactionHashes := [hash1] } addrB).error = none ∧
      (taskStatus
        { taskCompletions :=
            [(addrA, { timestamp := 1715418615, tx := hash1,
                       completedAt := now0 })],
          usedTransactionHashes := [hash1] } addrB).data =
        { timestamp := 0, tx := "" } :=
  c7_not_found_is_not_error _ addrB (by decide) (by decide)

/-- Claim C8: addresses are case-insensitive: two syntactically valid
addresses whose character-wise lower-casings agree are normalized to the
same lower-case key, so get-status gives identical results for them and
register-completion behaves identically on them — they resolve to the same
completion record. -/
theorem c8_address_case_insensitive (now : Int) (st : RegistryState)
    (a b : String) (ts : Int) (tx : Option String)
    (ha : isAddressFormat a = true) (hb : isAddressFormat b = true)
    (hcase : equalIgnoringCase a b = true) :
    toLowerCase a = toLowerCase b ∧
      taskStatus st a = taskStatus st b ∧
      completeTask now st a ts tx = completeTask now st b ts tx := by
  have hlow : toLowerCase a = toLowerCase b := by
    simp only [equalIgnoringCase, beq_iff_eq] at hcase
    simp [toLowerCase, hcase]
  refine ⟨hlow, ?_, ?_⟩
  · unfold taskStatus validateAddressParam
    simp [ha, hb, hlow]
  · unfold completeTask validateTaskCompletion
    simp [ha, hb, hlow]

/-- Witness for claim C8 at a concrete input: the upper- and lower-case
spellings of the same address behave identically on a registry that holds a
record under the lower-case key. -/
theorem c8_address_case_insensitive_witness :
    toLowerCase addrAUpper = toLowerCase addrA ∧
      taskStatus
          { taskCompletions :=
              [(addrA, { timestamp := 1715418615, tx := hash1,
                         completedAt := now0 })],
            usedTransactionHashes := [hash1] } addrAUpper =
        taskStatus
          { taskCompletions :=
              [(addrA, { timestamp := 1715418615, tx := hash1,
                         completedAt := now0 })],
            usedTransactionHashes := [hash1] } addrA ∧
      completeTask now0
          { taskCompletions :=
              [(addrA, { timestamp := 1715418615, tx := hash1,
                         completedAt := now0 })],
            usedTransactionHashes := [hash1] } addrAUpper 1715418700
          (some hash2) =
        completeTask now0
          { taskCompletions :=
              [(addrA, { timestamp := 1715418615, tx := hash1,
                         completedAt := now0 })],
            usedTransactionHashes := [hash1] } addrA 1715418700
          (some hash2) :=
  c8_address_case_insensitive now0 _ addrAUpper addrA 1715418700 (some hash2)
    (by decide) (by decide) (by decide)

/-- Claim C10: transaction-hash uniqueness is exact, case-sensitive string
membership and hashes are never normalized: two register-completion calls
for distinct addresses whose hashes are the same 64 hex digits in different
letter case both succeed, and afterwards the consumed-hash set contains
both case variants, which are distinct strings. -/
theorem c10_hash_membership_case_sensitive :
    (completeTask now0 emptyRegistry addrA 1715418615 (some hashUpper)).1 =
        createSuccessResponse 1715418615 (some hashUpper) ∧
      (completeTask now0
          (completeTask now0 emptyRegistry addrA 1715418615
            (some hashUpper)).2
          addrB 1715418700 (some hashLower)).1 =
        createSuccessResponse 1715418700 (some hashLower) ∧
      setHas (completeTask now0
          (completeTask now0 emptyRegistry addrA 1715418615
            (some hashUpper)).2
          addrB 1715418700 (some hashLower)).2.usedTransactionHashes
        hashUpper = true ∧
      setHas (completeTask now0
          (completeTask now0 emptyRegistry addrA 1715418615
            (some hashUpper)).2
          addrB 1715418700 (some hashLower)).2.usedTransactionHashes
        hashLower = true ∧
      equalIgnoringCase hashUpper hashLower = true ∧
      hashUpper ≠ hashLower :=
  ⟨by decide, by decide, by decide, by decide, by decide, by decide⟩

/-- One register-completion call preserves every stored record (it writes
only to a key that was absent) and preserves distinctness of the map
keys. -/
theorem completeTask_preserves_records (now : Int) (st : RegistryState)
    (a : String) (ts : Int) (tx : Option String) :
    (∀ k rec, mapGet st.taskCompletions k = some rec →
      mapGet (completeTask now st a ts tx).2.taskCompletions k = some rec) ∧
      ((st.taskCompletions.map Prod.fst).Nodup →
        ((completeTask now st a ts tx).2.taskCompletions.map Prod.fst).Nodup)
    := by
  unfold completeTask
  cases hval : validateTaskCompletion a ts tx with
  | some msg => exact ⟨fun k rec h => h, id⟩
  | none =>
    by_cases hts : isValidTimestamp now ts
    case neg =>
      simp only [hts, Bool.not_false, if_true]
      exact ⟨fun k rec h => h, id⟩
    case pos =>
    simp only [hts, Bool.not_true, Bool.false_eq_true, if_false]
    by_cases hdup : (txTruthy tx &&
        setHas st.usedTransactionHashes (tx.getD "")) = true
    case pos =>
      simp only [hdup, if_true]
      exact ⟨fun k rec h => h, id⟩
    case neg =>
    simp only [eq_false_of_ne_true hdup, Bool.false_eq_true, if_false]
    cases hex : mapGet st.taskCompletions (toLowerCase a) with
    | some existing => exact ⟨fun k rec h => h, id⟩
    | none =>
      have hpres : ∀ k rec, mapGet st.taskCompletions k = some rec →
          mapGet (mapSet st.taskCompletions (toLowerCase a)
            { timestamp := ts, tx := tx.getD "", completedAt := now }) k =
            some rec := by
        intro k rec h
        have hk : k ≠ toLowerCase a := by
          intro he
          rw [he, hex] at h
          exact Option.noConfusion h
        exact (mapGet_mapSet_of_ne st.taskCompletions (toLowerCase a) k _
          hk).trans h
      have hnodup : (st.taskCompletions.map Prod.fst).Nodup →
          ((mapSet st.taskCompletions (toLowerCase a)
            { timestamp := ts, tx := tx.getD "", completedAt := now }).map
              Prod.fst).Nodup := by
        intro hnd
        rw [mapSet_keys_of_fresh st.taskCompletions (toLowerCase a)
          { timestamp := ts, tx := tx.getD "", completedAt := now } hex]
        rw [List.nodup_append]
        refine ⟨hnd, List.nodup_singleton _, ?_⟩
        intro x hx hy
        rcases List.mem_singleton.mp hy with rfl
        exact (mapGet_eq_none_iff st.taskCompletions _).mp hex hx
      by_cases htx : txTruthy tx
      · simp only [htx, if_true]
        exact ⟨hpres, hnodup⟩
      · simp only [eq_false_of_ne_true htx, Bool.false_eq_true, if_false]
        exact ⟨hpres, hnodup⟩

/-- Any single registry operation preserves every stored record and the
distinctness of the map keys; the three read operations do not touch the
state at all. -/
theorem applyOp_preserves_records (st : RegistryState) (op : Op) :
    (∀ k rec, mapGet st.taskCompletions k = some rec →
      mapGet (applyOp st op).taskCompletions k = some rec) ∧
      ((st.taskCompletions.map Prod.fst).Nodup →
        ((applyOp st op).taskCompletions.map Prod.fst).Nodup) := by
  cases op with
  | register now a ts tx => exact completeTask_preserves_records now st a ts tx
  | status a => exact ⟨fun k rec h => h, id⟩
  | health n => exact ⟨fun k rec h => h, id⟩
  | stats n => exact ⟨fun k rec h => h, id⟩

/-- Claim C6: every sequence of registry operations preserves the
invariants: the map keys (normalized addresses) stay duplicate-free, so
each address has at most one completion record; and every stored record
survives unchanged — no operation deletes or overwrites a record, so the
per-address state only moves one way from absent to completed and a
record's fields never change after insertion. -/
theorem c6_invariants_preserved (st : RegistryState) (ops : List Op)
    (hnd : (st.taskCompletions.map Prod.fst).Nodup) :
    ((applyOps st ops).taskCompletions.map Prod.fst).Nodup ∧
      ∀ k rec, mapGet st.taskCompletions k = some rec →
        mapGet (applyOps st ops).taskCompletions k = some rec := by
  induction ops generalizing st with
  | nil => exact ⟨hnd, fun k rec h => h⟩
  | cons op rest ih =>
    have hstep := applyOp_preserves_records st op
    have hrest := ih (applyOp st op) (hstep.2 hnd)
    exact ⟨hrest.1, fun k rec h => hrest.2 k rec (hstep.1 k rec h)⟩

/-- Witness for claim C6 at a concrete input: starting from a registry
holding one record for addrA, a sequence of a fresh registration by addrB,
a duplicate-hash attempt, a retry by addrA and two reads keeps the keys
duplicate-free and keeps addrA's record intact. -/
theorem c6_invariants_preserved_witness :
    ((applyOps
        { taskCompletions :=
            [(addrA, { timestamp := 1715418615, tx := hash1,
                       completedAt := now0 })],
          usedTransactionHashes := [hash1] }
        [Op.register now0 addrB 1715418700 (some hash2),
         Op.register now0 addrB 1715418700 (some hash1),
         Op.register now0 addrA 1715418800 none,
         Op.status addrA, Op.health now0, Op.stats now0]
        ).taskCompletions.map Prod.fst).Nodup ∧
      ∀ k rec,
        mapGet [(addrA, { timestamp := 1715418615, tx := hash1,
                          completedAt := now0 })] k = some rec →
        mapGet (applyOps
          { taskCompletions :=
              [(addrA, { timestamp := 1715418615, tx := hash1,
                         completedAt := now0 })],
            usedTransactionHashes := [hash1] }
          [Op.register now0 addrB 1715418700 (some hash2),
           Op.register now0 addrB 1715418700 (some hash1),
           Op.register now0 addrA 1715418800 none,
           Op.status addrA, Op.health now0, Op.stats now0]
          ).taskCompletions k = some rec :=
  c6_invariants_preserved _ _ (by decide)

end ZkBitgart

